import Mathlib

/-!
Shallow embedding of the `mcp-elicit` MCP server
(`src/apps/mcp-server/src/index.ts`, session-registry variant) in Lean 4.

The server keeps two in-memory maps: `validSessions` (session id →
authentication state) and `activeTransports` (SSE transport session id →
live transport handle).  The HTTP handler dispatches OPTIONS preflights,
GET stream opens, POST out-of-band messages and a `/api/mcp-connect`
endpoint.  The profile-collection tool handler and the per-stream
`onmessage` interceptor are pure and embedded directly.

JavaScript truthiness on optional strings (`undefined`, `null` and `""`
are all falsy) is modelled by `truthy : Option String → Bool`; `a || b`
on such values is `orFalsy`.  External collaborators are parameters:
the jose `jwtVerify` call is an abstract oracle `jwtValid` in the
configuration, the SDK-generated transport session id and the outcome of
`transport.handlePostMessage` are explicit arguments.
-/

namespace McpElicit

/-- Character containment on the underlying character list (JS
`String.prototype.includes` with a one-character needle). -/
def strContains (s : String) (c : Char) : Bool := s.data.contains c

/-- Prefix test on the underlying character lists (JS `startsWith`). -/
def strStartsWith (s p : String) : Bool := p.data.isPrefixOf s.data

/-- Drop the first `n` characters (JS `slice(n)`). -/
def strDrop (s : String) (n : Nat) : String := ⟨s.data.drop n⟩

/-- Strip leading and trailing whitespace (JS `trim`). -/
def strTrim (s : String) : String :=
  ⟨((s.data.dropWhile Char.isWhitespace).reverse.dropWhile Char.isWhitespace).reverse⟩

/-- JS truthiness for an optional string: `undefined`/`null`/`""` are falsy. -/
def truthy : Option String → Bool
  | none => false
  | some s => s != ""

/-- JS `a || b` on optional strings (first operand when truthy, else second). -/
def orFalsy (a b : Option String) : Option String :=
  if truthy a then a else b

/-- Input of `handleCollectProfile` (`ProfileInput` in the source); every
field is optional on the wire, `null` collapsed to `undefined` by `safe`. -/
structure ProfileInput where
  name : Option String
  email : Option String
  bio : Option String
  avatar : Option String
  sessionId : Option String
deriving Repr, DecidableEq

/-- One entry of an elicitation field schema (the objects in `fields`). -/
structure FormField where
  name : String
  label : String
  type : String
  required : Bool
  minLength : Option Nat
  maxLength : Option Nat
  errors : Option (List String)
deriving Repr, DecidableEq

/-- Elicitation payload: title, description and the field schema list. -/
structure Elicitation where
  title : String
  description : Option String
  fields : List FormField
deriving Repr, DecidableEq

/-- Echo of the accepted profile input in the success result. -/
structure Received where
  name : Option String
  email : Option String
  bio : Option String
  avatarProvided : Bool
deriving Repr, DecidableEq

/-- Reference to the (mock) persisted avatar file. -/
structure PersistedFile where
  path : String
  size : Nat
deriving Repr, DecidableEq

/-- Result of `handleCollectProfile` (`ProfileResult` in the source),
split by its `kind` discriminant. -/
inductive ProfileResult where
  | requiresAction (elicitation : Elicitation)
  | validationError (message : String) (elicitation : Elicitation)
  | success (message : String) (received : Received)
      (thumbnailDataUrl : Option String) (persistedFile : Option PersistedFile)
deriving Repr, DecidableEq

/-- `!inName && !inEmail && !inBio && !inAvatar`: first-call detection. -/
def allEmpty (i : ProfileInput) : Bool :=
  !truthy i.name && !truthy i.email && !truthy i.bio && !truthy i.avatar

/-- `!inName || String(inName).length < 2`. -/
def nameInvalid (v : Option String) : Bool :=
  !truthy v || decide ((v.getD "").length < 2)

/-- `!inEmail || !String(inEmail).includes("@")`. -/
def emailInvalid (v : Option String) : Bool :=
  !truthy v || !strContains (v.getD "") '@'

/-- `inBio && String(inBio).length > 500`. -/
def bioInvalid (v : Option String) : Bool :=
  truthy v && decide (500 < (v.getD "").length)

/-- `Object.keys(errors).length > 0` after the three validation checks. -/
def hasValidationErrors (i : ProfileInput) : Bool :=
  nameInvalid i.name || emailInvalid i.email || bioInvalid i.bio

/-- The field schema returned on the first (empty) call. -/
def formFields : List FormField :=
  [ ⟨"name", "Full Name", "text", true, some 2, none, none⟩,
    ⟨"email", "Email Address", "email", true, none, none, none⟩,
    ⟨"bio", "Short Bio", "textarea", false, none, some 500, none⟩,
    ⟨"avatar", "Profile Picture", "file", false, none, none, none⟩ ]

/-- The field schema returned on a validation failure, carrying the
per-field error lists (`errors.avatar` is never assigned in the source). -/
def validationFields (i : ProfileInput) : List FormField :=
  [ ⟨"name", "Full Name", "text", true, some 2, none,
      if nameInvalid i.name then
        some ["Name is required and must be at least 2 characters"] else none⟩,
    ⟨"email", "Email Address", "email", true, none, none,
      if emailInvalid i.email then
        some ["A valid email address is required"] else none⟩,
    ⟨"bio", "Short Bio", "textarea", false, none, some 500,
      if bioInvalid i.bio then
        some ["Bio cannot exceed 500 characters"] else none⟩,
    ⟨"avatar", "Profile Picture", "file", false, none, none, none⟩ ]

/-- `handleCollectProfile` from the source.  `now` stands for `Date.now()`
(used only in the mock persisted-file path). -/
def handleCollectProfile (now : Nat) (input : ProfileInput) : ProfileResult :=
  if allEmpty input then
    .requiresAction ⟨"Profile Information",
      some "Please provide your profile information to continue.", formFields⟩
  else if hasValidationErrors input then
    .validationError "Please correct the errors in your submission"
      ⟨"Profile Information", some "Please correct the errors below.",
        validationFields input⟩
  else
    let avatarData := truthy input.avatar && strStartsWith (input.avatar.getD "") "data:"
    .success ("Thank you, " ++ input.name.getD "" ++ "! Your profile has been saved.")
      ⟨input.name, input.email, input.bio, truthy input.avatar⟩
      (if avatarData then input.avatar else none)
      (if avatarData then
        some ⟨"/uploads/avatars/" ++ toString now ++ "_profile.jpg",
          (input.avatar.getD "").length⟩
       else none)

/-- A protocol message as read by the `onmessage` interceptor: `method`,
`id`, `params.name` / `params.arguments` (for `tools/call`) and `params`
itself read as a profile input (for the bare method spellings). -/
structure RpcMessage where
  method : Option String
  id : Option Int
  toolName : Option String
  toolArgs : Option ProfileInput
  params : Option ProfileInput
deriving Repr

/-- Payload of a response the interceptor pushes down the stream. -/
inductive SendPayload where
  | toolsList
  | profileResult (r : ProfileResult)
deriving Repr, DecidableEq

/-- A JSON-RPC response sent by the interceptor (`{jsonrpc, id, result}`). -/
structure SentMessage where
  id : Int
  payload : SendPayload
deriving Repr, DecidableEq

/-- Outcome of the interceptor: either it handled the message itself
(sending the listed responses) or it passed through to the previous
(SDK) `onmessage` handler. -/
inductive InterceptResult where
  | handled (sends : List SentMessage)
  | passthrough
deriving Repr, DecidableEq

/-- The all-`undefined` profile input (`args || {}` / `params || {}`). -/
def emptyProfileInput : ProfileInput := ⟨none, none, none, none, none⟩

/-- The per-stream `onmessage` interceptor installed by
`attachInterceptors` in the GET handler. -/
def onmessage (now : Nat) (msg : RpcMessage) : InterceptResult :=
  match msg.method with
  | none => .passthrough
  | some m =>
    if m == "" then .passthrough
    else if m == "tools/list" then
      .handled (match msg.id with
        | some i => [⟨i, .toolsList⟩]
        | none => [])
    else if m == "tools/call" then
      if msg.toolName == some "collectProfile" || msg.toolName == some "collect_profile" then
        .handled (match msg.id with
          | some i => [⟨i, .profileResult
              (handleCollectProfile now (msg.toolArgs.getD emptyProfileInput))⟩]
          | none => [])
      else .passthrough
    else if m == "collectProfile" || m == "collect_profile" then
      .handled (match msg.id with
        | some i => [⟨i, .profileResult
            (handleCollectProfile now (msg.params.getD emptyProfileInput))⟩]
        | none => [])
    else .passthrough

/-- The messages the interceptor handles itself (rather than passing to
the previous handler): `tools/list`, `tools/call` naming the
profile-collection tool in either spelling, or a bare method in either
spelling. -/
def interceptorHandles (msg : RpcMessage) : Prop :=
  msg.method = some "tools/list" ∨
  (msg.method = some "tools/call" ∧
    (msg.toolName = some "collectProfile" ∨ msg.toolName = some "collect_profile")) ∨
  msg.method = some "collectProfile" ∨
  msg.method = some "collect_profile"

/-- Association-list model of a JS `Map` with string keys; `List.lookup`
gives `Map.get`. -/
abbrev SMap (α : Type) := List (String × α)

/-- `Map.set`: replace any existing binding for the key. -/
def mapSet {α : Type} (k : String) (v : α) (m : SMap α) : SMap α :=
  (k, v) :: m.filter (fun p => p.1 != k)

/-- `Map.delete`: drop the binding for the key (idempotent). -/
def mapDelete {α : Type} (k : String) (m : SMap α) : SMap α :=
  m.filter (fun p => p.1 != k)

/-- Authentication state tracked per session id in `validSessions`. -/
structure SessionInfo where
  valid : Bool
  lastAccess : Nat
deriving Repr, DecidableEq

/-- The server's shared mutable state: `validSessions` (session id →
auth state) and `activeTransports` (SSE transport session id → live
transport, modelled by a numeric tag identifying the handle). -/
structure ServerState where
  validSessions : SMap SessionInfo
  activeTransports : SMap Nat
deriving Repr, DecidableEq

/-- Environment-derived configuration of the server.  `jwtValid` is the
external jose `jwtVerify` call against `SHARED_AUTH_SECRET`, abstracted
as an oracle saying which presented tokens verify. -/
structure AuthConfig where
  AUTH_REQUIRED : Bool
  SHARED_AUTH_SECRET : Option String
  REQUIRED_TOKEN : Option String
  jwtValid : String → Bool
  ALLOW_ORIGINS : List String
  SSE_PATH : String

/-- The parts of an incoming HTTP request the server reads: method,
path, `Origin`, `Authorization`, the two session headers, and the
`sessionId` / `access_token` / `token` query parameters. -/
structure Request where
  method : String
  pathname : String
  origin : Option String
  authorization : Option String
  xSseSession : Option String
  xMcpSession : Option String
  qSessionId : Option String
  qAccessToken : Option String
  qToken : Option String
deriving Repr

/-- Token taken from an `Authorization: Bearer …` header
(`auth.slice("Bearer ".length).trim()`, empty result falsy). -/
def bearerToken (auth : Option String) : Option String :=
  match auth with
  | some a =>
    if strStartsWith a "Bearer " then
      let t := strTrim (strDrop a "Bearer ".length)
      if t == "" then none else some t
    else none
  | none => none

/-- `providedToken`: Bearer header first, else
`access_token || token || undefined` from the query string. -/
def providedToken (req : Request) : Option String :=
  match bearerToken req.authorization with
  | some t => some t
  | none => orFalsy req.qAccessToken (orFalsy req.qToken none)

/-- Session id seen by `checkAuth`:
`url.searchParams.get("sessionId") || sessionIdFromBody || null`. -/
def authSessionId (req : Request) (sessionIdFromBody : Option String) : Option String :=
  orFalsy req.qSessionId (orFalsy sessionIdFromBody none)

/-- Update `lastAccess` of an existing session, keeping its flag
(the body of the session-auth branch of `checkAuth`). -/
def touchSession (sid : String) (now : Nat) (m : SMap SessionInfo) : SMap SessionInfo :=
  match m.lookup sid with
  | some info => mapSet sid ⟨info.valid, now⟩ m
  | none => m

/-- Result record of `checkAuth` (payload omitted). -/
structure AuthResult where
  valid : Bool
  bypass : Bool
  sessionAuth : Bool
deriving Repr, DecidableEq

/-- `checkAuth` from the source, with the mutation of `validSessions`
made explicit.  Order of checks: bypass; POST with an already-registered
session id; token presence; JWT verification when a shared secret is
configured; else byte-equality with `REQUIRED_TOKEN` when configured,
else `Boolean(providedToken)`. -/
def checkAuth (cfg : AuthConfig) (req : Request) (sessionIdFromBody : Option String)
    (now : Nat) (validSessions : SMap SessionInfo) : AuthResult × SMap SessionInfo :=
  let tok := providedToken req
  let sessionId := authSessionId req sessionIdFromBody
  let hasSession : Bool :=
    match sessionId with
    | some sid => (validSessions.lookup sid).isSome
    | none => false
  if cfg.AUTH_REQUIRED = false then
    (⟨true, true, false⟩,
      match sessionId with
      | some sid => mapSet sid ⟨true, now⟩ validSessions
      | none => validSessions)
  else if req.method == "POST" && hasSession then
    (⟨true, false, true⟩,
      match sessionId with
      | some sid => touchSession sid now validSessions
      | none => validSessions)
  else
    match tok with
    | none => (⟨false, false, false⟩, validSessions)
    | some t =>
      if truthy cfg.SHARED_AUTH_SECRET then
        if cfg.jwtValid t then
          (⟨true, false, false⟩,
            match sessionId with
            | some sid => mapSet sid ⟨true, now⟩ validSessions
            | none => validSessions)
        else (⟨false, false, false⟩, validSessions)
      else
        let valid : Bool :=
          if truthy cfg.REQUIRED_TOKEN then cfg.REQUIRED_TOKEN == some t else t != ""
        if valid then
          (⟨true, false, false⟩,
            match sessionId with
            | some sid => mapSet sid ⟨true, now⟩ validSessions
            | none => validSessions)
        else (⟨false, false, false⟩, validSessions)

/-- Outcome of the GET stream-open handler: a rejection with the HTTP
status the source writes (`401` unauthorized, `400` missing `sessionId`),
or acceptance carrying the client session id and the SDK transport id. -/
inductive GetOutcome where
  | rejected (status : Nat)
  | accepted (sessionId tSid : String)
deriving Repr, DecidableEq

/-- The GET `SSE_PATH` handler.  `tSid` is the session id the SDK
generates for the new `SSEServerTransport` (under which the transport is
registered in `activeTransports`); `tag` identifies the transport handle. -/
def handleGet (cfg : AuthConfig) (req : Request) (now : Nat) (tSid : String)
    (tag : Nat) (st : ServerState) : GetOutcome × ServerState :=
  let ca := checkAuth cfg req none now st.validSessions
  if ca.1.valid = false then
    (.rejected 401, ⟨ca.2, st.activeTransports⟩)
  else
    match orFalsy req.qSessionId none with
    | none => (.rejected 400, ⟨ca.2, st.activeTransports⟩)
    | some sid =>
      (.accepted sid tSid,
        ⟨mapSet sid ⟨true, now⟩ ca.2, mapSet tSid tag st.activeTransports⟩)

/-- Cleanup run when an accepted stream closes (by explicit close, abort
or network drop): the `req.on("close")` handler deletes the client
session id from `validSessions`, and `transport.onclose` deletes the
transport's id from `activeTransports`. -/
def closeStream (sessionId tSid : String) (st : ServerState) : ServerState :=
  ⟨mapDelete sessionId st.validSessions, mapDelete tSid st.activeTransports⟩

/-- Outcome of the POST `SSE_PATH` handler: a rejection with the status
the source writes (`400`/`401`/`404`, and `500` when forwarding throws),
or delegation of the raw body to the transport with the given tag. -/
inductive PostOutcome where
  | rejected (status : Nat)
  | forwarded (tag : Nat)
deriving Repr, DecidableEq

/-- Session id seen by the POST handler: `X-SSE-Session` or
`X-MCP-Session` header (trimmed, falsy skipped), else the `sessionId`
query parameter. -/
def postSessionId (req : Request) : Option String :=
  match orFalsy req.xSseSession (orFalsy req.xMcpSession none) with
  | some h => if strTrim h == "" then orFalsy req.qSessionId none else some (strTrim h)
  | none => orFalsy req.qSessionId none

/-- The POST `SSE_PATH` handler.  `forwardOk` says whether the delegated
`transport.handlePostMessage` call succeeds (it is external SDK code);
when it throws, the source replies 500. -/
def handlePost (cfg : AuthConfig) (req : Request) (now : Nat) (forwardOk : Bool)
    (st : ServerState) : PostOutcome × ServerState :=
  match postSessionId req with
  | none => (.rejected 400, st)
  | some sid =>
    let ca := checkAuth cfg req (some sid) now st.validSessions
    let st1 : ServerState := ⟨ca.2, st.activeTransports⟩
    if ca.1.valid = false then (.rejected 401, st1)
    else
      match st.activeTransports.lookup sid with
      | none => (.rejected 404, st1)
      | some tag =>
        if forwardOk then (.forwarded tag, st1) else (.rejected 500, st1)

/-- `resolveAllowedOrigin`: falsy origin → null; a configured `*`
reflects the request origin; otherwise exact allow-list membership. -/
def resolveAllowedOrigin (allowOrigins : List String) (reqOrigin : Option String) :
    Option String :=
  if !truthy reqOrigin then none
  else if allowOrigins.contains "*" then reqOrigin
  else if allowOrigins.contains (reqOrigin.getD "") then reqOrigin
  else none

/-- Outcome of one pass through the top-level `http.createServer`
callback.  `preflight` carries the status and the
`Access-Control-Allow-Origin` header `setCors` set (if any); `connect`
is the `/api/mcp-connect` endpoint's status; `notFound` the 404
fallback. -/
inductive ServerOutcome where
  | preflight (status : Nat) (acao : Option String)
  | get (o : GetOutcome)
  | post (o : PostOutcome)
  | connect (status : Nat)
  | notFound
deriving Repr, DecidableEq

/-- The top-level request dispatch: OPTIONS is answered first for any
path; then GET/POST on `SSE_PATH`; then POST `/api/mcp-connect` (whose
parsed body's `sessionId` is `connectBody`, `none` meaning the JSON
parse failed); else 404. -/
def handleRequest (cfg : AuthConfig) (req : Request) (now : Nat) (tSid : String)
    (tag : Nat) (forwardOk : Bool) (connectBody : Option (Option String))
    (st : ServerState) : ServerOutcome × ServerState :=
  if req.method = "OPTIONS" then
    (.preflight 204 (resolveAllowedOrigin cfg.ALLOW_ORIGINS req.origin), st)
  else if req.method = "GET" ∧ req.pathname = cfg.SSE_PATH then
    let r := handleGet cfg req now tSid tag st
    (.get r.1, r.2)
  else if req.method = "POST" ∧ req.pathname = cfg.SSE_PATH then
    let r := handlePost cfg req now forwardOk st
    (.post r.1, r.2)
  else if req.method = "POST" ∧ req.pathname = "/api/mcp-connect" then
    match connectBody with
    | none => (.connect 400, st)
    | some bodySid =>
      let ca := checkAuth cfg req bodySid now st.validSessions
      if ca.1.valid then (.connect 200, ⟨ca.2, st.activeTransports⟩)
      else (.connect 401, ⟨ca.2, st.activeTransports⟩)
  else (.notFound, st)

/-- The credential check of `checkAuth` outside the bypass and
session-auth branches, phrased as a failure predicate. -/
def tokenCheckFails (cfg : AuthConfig) (req : Request) : Bool :=
  match providedToken req with
  | none => true
  | some t =>
    if truthy cfg.SHARED_AUTH_SECRET then !cfg.jwtValid t
    else if truthy cfg.REQUIRED_TOKEN then !(cfg.REQUIRED_TOKEN == some t)
    else t == ""

theorem lookup_mapDelete {α : Type} (k k' : String) (m : SMap α) :
    (mapDelete k' m).lookup k = if k = k' then none else m.lookup k := by
  induction m with
  | nil => simp [mapDelete]
  | cons p t ih =>
    obtain ⟨a, b⟩ := p
    simp only [mapDelete, List.filter_cons] at ih ⊢
    by_cases ha : a = k'
    · subst ha
      simp only [bne_self_eq_false, Bool.false_eq_true, if_false]
      rw [ih]
      by_cases hk : k = a
      · simp [hk]
      · have hka : (k == a) = false := by simpa using hk
        simp [List.lookup_cons, hka, hk]
    · have hbne : (a != k') = true := bne_iff_ne.mpr ha
      simp only [hbne, if_true]
      by_cases hk : k = a
      · subst hk
        have hkk : ¬ k = k' := ha
        simp [List.lookup_cons, hkk]
      · have hka : (k == a) = false := by simpa using hk
        rw [List.lookup_cons, List.lookup_cons, hka]
        simpa using ih

theorem lookup_mapSet {α : Type} (k k' : String) (v : α) (m : SMap α) :
    (mapSet k' v m).lookup k = if k = k' then some v else m.lookup k := by
  by_cases h : k = k'
  · subst h; simp [mapSet, List.lookup_cons]
  · have hb : (k == k') = false := by simpa using h
    simp only [mapSet, List.lookup_cons, hb, if_neg h]
    have hd := lookup_mapDelete (α := α) k k' m
    rw [if_neg h] at hd
    simpa [mapDelete] using hd

/-- C7: a profile-collection call with name, email, bio and avatar all
absent returns a `requiresAction` result whose field list is exactly
name/email/bio/avatar (name required min-length 2, email required, bio
optional max-length 500, avatar optional file); a call with
`{name:"Al", email:"a@b.com"}` and bio/avatar omitted returns `success`
with `received.name == "Al"`. -/
theorem c7_round_trip :
    handleCollectProfile 0 ⟨none, none, none, none, none⟩ =
      .requiresAction ⟨"Profile Information",
        some "Please provide your profile information to continue.", formFields⟩ ∧
    formFields.map FormField.name = ["name", "email", "bio", "avatar"] ∧
    formFields.map FormField.required = [true, true, false, false] ∧
    formFields.map FormField.minLength = [some 2, none, none, none] ∧
    formFields.map FormField.maxLength = [none, none, some 500, none] ∧
    formFields.map FormField.type = ["text", "email", "textarea", "file"] ∧
    handleCollectProfile 0 ⟨some "Al", some "a@b.com", none, none, none⟩ =
      .success "Thank you, Al! Your profile has been saved."
        ⟨some "Al", some "a@b.com", none, false⟩ none none ∧
    (Received.mk (some "Al") (some "a@b.com") none false).name = some "Al" := by
  decide

/-- C8: for every non-empty profile-collection input, an absent or
too-short name yields a `validationError` carrying a name error, an
absent or at-sign-free email an email error, an over-500-character bio a
bio error; multiple violations in one call all appear together with the
field schema. -/
theorem c8_validation (now : Nat) (i : ProfileInput) (h : allEmpty i = false) :
    (nameInvalid i.name = true →
      handleCollectProfile now i =
        .validationError "Please correct the errors in your submission"
          ⟨"Profile Information", some "Please correct the errors below.",
            validationFields i⟩ ∧
      ((validationFields i)[0]?).bind FormField.errors =
        some ["Name is required and must be at least 2 characters"]) ∧
    (emailInvalid i.email = true →
      handleCollectProfile now i =
        .validationError "Please correct the errors in your submission"
          ⟨"Profile Information", some "Please correct the errors below.",
            validationFields i⟩ ∧
      ((validationFields i)[1]?).bind FormField.errors =
        some ["A valid email address is required"]) ∧
    (bioInvalid i.bio = true →
      handleCollectProfile now i =
        .validationError "Please correct the errors in your submission"
          ⟨"Profile Information", some "Please correct the errors below.",
            validationFields i⟩ ∧
      ((validationFields i)[2]?).bind FormField.errors =
        some ["Bio cannot exceed 500 characters"]) ∧
    (validationFields i).map FormField.name = ["name", "email", "bio", "avatar"] := by
  refine ⟨?_, ?_, ?_, ?_⟩
  · intro hn
    have hv : hasValidationErrors i = true := by
      simp [hasValidationErrors, hn]
    constructor
    · simp [handleCollectProfile, h, hv]
    · simp [validationFields, hn]
  · intro he
    have hv : hasValidationErrors i = true := by
      simp [hasValidationErrors, he]
    constructor
    · simp [handleCollectProfile, h, hv]
    · simp [validationFields, he]
  · intro hb
    have hv : hasValidationErrors i = true := by
      simp [hasValidationErrors, hb]
    constructor
    · simp [handleCollectProfile, h, hv]
    · simp [validationFields, hb]
  · simp [validationFields]

/-- Witness for C8 at the concrete input `{name:"A", email:"noat"}`
(name too short and email without `@` in the same call). -/
theorem c8_validation_witness :
    allEmpty ⟨some "A", some "noat", none, none, none⟩ = false ∧
    ((nameInvalid (some "A") = true →
      handleCollectProfile 0 ⟨some "A", some "noat", none, none, none⟩ =
        .validationError "Please correct the errors in your submission"
          ⟨"Profile Information", some "Please correct the errors below.",
            validationFields ⟨some "A", some "noat", none, none, none⟩⟩ ∧
      ((validationFields ⟨some "A", some "noat", none, none, none⟩)[0]?).bind
          FormField.errors =
        some ["Name is required and must be at least 2 characters"]) ∧
    (emailInvalid (some "noat") = true →
      handleCollectProfile 0 ⟨some "A", some "noat", none, none, none⟩ =
        .validationError "Please correct the errors in your submission"
          ⟨"Profile Information", some "Please correct the errors below.",
            validationFields ⟨some "A", some "noat", none, none, none⟩⟩ ∧
      ((validationFields ⟨some "A", some "noat", none, none, none⟩)[1]?).bind
          FormField.errors =
        some ["A valid email address is required"]) ∧
    (bioInvalid none = true →
      handleCollectProfile 0 ⟨some "A", some "noat", none, none, none⟩ =
        .validationError "Please correct the errors in your submission"
          ⟨"Profile Information", some "Please correct the errors below.",
            validationFields ⟨some "A", some "noat", none, none, none⟩⟩ ∧
      ((validationFields ⟨some "A", some "noat", none, none, none⟩)[2]?).bind
          FormField.errors =
        some ["Bio cannot exceed 500 characters"]) ∧
    (validationFields ⟨some "A", some "noat", none, none, none⟩).map FormField.name =
      ["name", "email", "bio", "avatar"]) :=
  ⟨by decide, c8_validation 0 ⟨some "A", some "noat", none, none, none⟩ (by decide)⟩

/-- C6: for every protocol message the dispatcher interceptor handles
(tools/list, tools/call naming the profile tool, or a bare
collectProfile / collect_profile), a defined `id` yields exactly one
response carrying that same `id`, and an undefined `id` yields no
response at all. -/
theorem c6_correlation (now : Nat) (msg : RpcMessage) (h : interceptorHandles msg) :
    (∀ i, msg.id = some i → ∃ p, onmessage now msg = .handled [⟨i, p⟩]) ∧
    (msg.id = none → onmessage now msg = .handled []) := by
  rcases h with h | ⟨h, hn | hn⟩ | h | h
  · exact ⟨fun i hi => ⟨.toolsList, by simp [onmessage, h, hi]⟩,
      fun hi => by simp [onmessage, h, hi]⟩
  · exact ⟨fun i hi =>
      ⟨.profileResult (handleCollectProfile now (msg.toolArgs.getD emptyProfileInput)),
        by simp [onmessage, h, hn, hi]⟩,
      fun hi => by simp [onmessage, h, hn, hi]⟩
  · exact ⟨fun i hi =>
      ⟨.profileResult (handleCollectProfile now (msg.toolArgs.getD emptyProfileInput)),
        by simp [onmessage, h, hn, hi]⟩,
      fun hi => by simp [onmessage, h, hn, hi]⟩
  · exact ⟨fun i hi =>
      ⟨.profileResult (handleCollectProfile now (msg.params.getD emptyProfileInput)),
        by simp [onmessage, h, hi]⟩,
      fun hi => by simp [onmessage, h, hi]⟩
  · exact ⟨fun i hi =>
      ⟨.profileResult (handleCollectProfile now (msg.params.getD emptyProfileInput)),
        by simp [onmessage, h, hi]⟩,
      fun hi => by simp [onmessage, h, hi]⟩

/-- Witness for C6: a `tools/list` request with id 5 gets exactly one
response with id 5, and the same request without an id gets none. -/
theorem c6_correlation_witness :
    (∃ p, onmessage 0 ⟨some "tools/list", some 5, none, none, none⟩ =
      .handled [⟨5, p⟩]) ∧
    onmessage 0 ⟨some "tools/list", none, none, none, none⟩ = .handled [] :=
  ⟨(c6_correlation 0 ⟨some "tools/list", some 5, none, none, none⟩ (Or.inl rfl)).1 5 rfl,
   (c6_correlation 0 ⟨some "tools/list", none, none, none, none⟩ (Or.inl rfl)).2 rfl⟩

/-- A concrete configuration for witnesses: auth required, no shared
secret, static required token `"tok"`, default allowed origin and path. -/
def demoCfg : AuthConfig :=
  ⟨true, none, some "tok", fun _ => false, ["http://localhost:3000"], "/mcp/sse"⟩

theorem orFalsy_ne_empty_left (a b : Option String) (t : String)
    (h : orFalsy a b = some t) (hb : b = some t → t ≠ "") : t ≠ "" := by
  unfold orFalsy at h
  split at h
  · rename_i ha
    rw [h] at ha
    simpa [truthy] using ha
  · exact hb h

theorem orFalsy_none_ne (a : Option String) (t : String)
    (h : orFalsy a none = some t) : t ≠ "" :=
  orFalsy_ne_empty_left a none t h (fun hc => absurd hc (by simp))

theorem bearerToken_ne_empty (a : Option String) (t : String)
    (h : bearerToken a = some t) : t ≠ "" := by
  cases a with
  | none => simp [bearerToken] at h
  | some s =>
    simp only [bearerToken] at h
    split at h
    · split at h
      · exact absurd h (by simp)
      · rename_i hne
        cases h
        simpa using hne
    · exact absurd h (by simp)

theorem providedToken_ne_empty (req : Request) (t : String)
    (h : providedToken req = some t) : t ≠ "" := by
  unfold providedToken at h
  cases hb : bearerToken req.authorization with
  | some b =>
    rw [hb] at h
    cases h
    exact bearerToken_ne_empty _ _ hb
  | none =>
    rw [hb] at h
    exact orFalsy_ne_empty_left _ _ _ h (fun h2 => orFalsy_none_ne _ _ h2)

theorem postSessionId_ne_empty (req : Request) (s : String)
    (h : postSessionId req = some s) : s ≠ "" := by
  unfold postSessionId at h
  split at h
  · split at h
    · exact orFalsy_none_ne _ _ h
    · rename_i hne
      cases h
      simpa using hne
  · exact orFalsy_none_ne _ _ h

/-- `checkAuth` never touches the registry when there is no session id
(neither in the query string nor passed from the body). -/
theorem checkAuth_state_of_no_sid (cfg : AuthConfig) (req : Request) (b : Option String)
    (now : Nat) (s : SMap SessionInfo) (h : authSessionId req b = none) :
    (checkAuth cfg req b now s).2 = s := by
  simp only [checkAuth, h]
  repeat' split
  all_goals rfl

/-- C4: on a GET stream-open with authentication required and no token
presented (no Bearer credential and no `access_token`/`token` query
parameter), the server answers 401 and the whole state — in particular
the Session Registry — is unchanged, whatever session id was supplied. -/
theorem c4_unauthorized_get_no_mutation (cfg : AuthConfig) (req : Request) (now : Nat)
    (tSid : String) (tag : Nat) (st : ServerState)
    (hm : req.method = "GET")
    (hauth : cfg.AUTH_REQUIRED = true)
    (hb : bearerToken req.authorization = none)
    (hq : orFalsy req.qAccessToken (orFalsy req.qToken none) = none) :
    handleGet cfg req now tSid tag st = (.rejected 401, st) := by
  have htok : providedToken req = none := by
    simp [providedToken, hb, hq]
  have hca : checkAuth cfg req none now st.validSessions =
      (⟨false, false, false⟩, st.validSessions) := by
    simp [checkAuth, htok, hauth, hm]
  simp [handleGet, hca]

/-- Witness for C4: a GET with session id S1 and no token against the
demo configuration is rejected 401 with the state untouched. -/
theorem c4_unauthorized_get_no_mutation_witness :
    handleGet demoCfg ⟨"GET", "/mcp/sse", none, none, none, none, some "S1", none, none⟩
      0 "T1" 7 ⟨[], []⟩ = (.rejected 401, ⟨[], []⟩) :=
  c4_unauthorized_get_no_mutation demoCfg _ 0 "T1" 7 ⟨[], []⟩ rfl rfl rfl rfl

/-- Counterexample to C5: a GET with the `sessionId` parameter absent
and no token is rejected 401, not the claimed 400 — the handler runs
`checkAuth` before it ever extracts the session id. -/
theorem c5_counterexample :
    (handleGet demoCfg ⟨"GET", "/mcp/sse", none, none, none, none, none, none, none⟩
        0 "T1" 7 ⟨[], []⟩).1 = .rejected 401 ∧
    (handleGet demoCfg ⟨"GET", "/mcp/sse", none, none, none, none, none, none, none⟩
        0 "T1" 7 ⟨[], []⟩).1 ≠ .rejected 400 := by
  decide

/-- C5 as amended: authentication runs first; when `checkAuth` accepts
the request (valid token or bypass) and the `sessionId` parameter is
absent, the GET is rejected 400 and no session is created or mutated. -/
theorem c5_amended_missing_session_after_auth (cfg : AuthConfig) (req : Request)
    (now : Nat) (tSid : String) (tag : Nat) (st : ServerState)
    (hs : orFalsy req.qSessionId none = none)
    (ha : (checkAuth cfg req none now st.validSessions).1.valid = true) :
    handleGet cfg req now tSid tag st = (.rejected 400, st) := by
  have hsid : authSessionId req none = none := by
    unfold authSessionId
    rw [show orFalsy none none = (none : Option String) from rfl]
    exact hs
  have hst : (checkAuth cfg req none now st.validSessions).2 = st.validSessions :=
    checkAuth_state_of_no_sid cfg req none now st.validSessions hsid
  simp [handleGet, ha, hs, hst]

/-- Witness for the amended C5: an authenticated GET without a
`sessionId` parameter is rejected 400 with the state untouched. -/
theorem c5_amended_missing_session_after_auth_witness :
    handleGet demoCfg ⟨"GET", "/mcp/sse", none, some "Bearer tok", none, none, none, none, none⟩
      0 "T1" 7 ⟨[], []⟩ = (.rejected 400, ⟨[], []⟩) :=
  c5_amended_missing_session_after_auth demoCfg _ 0 "T1" 7 ⟨[], []⟩ rfl (by decide)

/-- C10: with authentication required but neither a shared verification
secret nor a static required token configured, `checkAuth` accepts any
request presenting a (necessarily non-empty) token — `valid` falls back
to `Boolean(providedToken)`. -/
theorem c10_any_token_accepted (cfg : AuthConfig) (req : Request) (b : Option String)
    (now : Nat) (s : SMap SessionInfo) (t : String)
    (hauth : cfg.AUTH_REQUIRED = true)
    (hsec : cfg.SHARED_AUTH_SECRET = none)
    (htok : cfg.REQUIRED_TOKEN = none)
    (ht : providedToken req = some t) :
    (checkAuth cfg req b now s).1.valid = true := by
  have hne : t ≠ "" := providedToken_ne_empty req t ht
  have hbne : (t != "") = true := bne_iff_ne.mpr hne
  simp only [checkAuth, hauth, hsec, htok, ht, truthy, hbne]
  split
  · simp
  · split
    · rfl
    · simp

/-- Witness for C10: the arbitrary token `"anything"` in the `token`
query parameter authenticates against a config with no secret and no
required token. -/
theorem c10_any_token_accepted_witness :
    (checkAuth ⟨true, none, none, fun _ => false, [], "/mcp/sse"⟩
      ⟨"GET", "/mcp/sse", none, none, none, none, none, none, some "anything"⟩
      none 0 []).1.valid = true :=
  c10_any_token_accepted ⟨true, none, none, fun _ => false, [], "/mcp/sse"⟩
    _ none 0 [] "anything" rfl rfl rfl (by decide)

/-- C3: out-of-band POST precedence — missing session id (no session
header and no `sessionId` query parameter) is rejected 400; a present
session id with a failing `checkAuth` is rejected 401; authenticated but
with no live transport registered under the id is rejected 404; else the
body is forwarded to the transport, a forwarding failure being reported
as 500. -/
theorem c3_post_precedence (cfg : AuthConfig) (req : Request) (now : Nat) (fOk : Bool)
    (st : ServerState) :
    (req.xSseSession = none → req.xMcpSession = none → req.qSessionId = none →
      (handlePost cfg req now fOk st).1 = .rejected 400) ∧
    (∀ sid, postSessionId req = some sid →
      ((checkAuth cfg req (some sid) now st.validSessions).1.valid = false →
        (handlePost cfg req now fOk st).1 = .rejected 401) ∧
      ((checkAuth cfg req (some sid) now st.validSessions).1.valid = true →
        (st.activeTransports.lookup sid = none →
          (handlePost cfg req now fOk st).1 = .rejected 404) ∧
        (∀ tag, st.activeTransports.lookup sid = some tag →
          (handlePost cfg req now fOk st).1 =
            if fOk then .forwarded tag else .rejected 500))) := by
  constructor
  · intro h1 h2 h3
    have hps : postSessionId req = none := by
      simp [postSessionId, h1, h2, h3, orFalsy, truthy]
    simp [handlePost, hps]
  · intro sid hsid
    refine ⟨fun hv => ?_, fun hv => ⟨fun hl => ?_, fun tag hl => ?_⟩⟩
    · simp [handlePost, hsid, hv]
    · simp [handlePost, hsid, hv, hl]
    · cases fOk <;> simp [handlePost, hsid, hv, hl]

/-- Witness for C3: an authenticated POST for a session id with no live
transport is rejected 404. -/
theorem c3_post_precedence_witness :
    (handlePost demoCfg
        ⟨"POST", "/mcp/sse", none, some "Bearer tok", none, none, some "S9", none, none⟩
        0 true ⟨[], []⟩).1 = .rejected 404 :=
  (((c3_post_precedence demoCfg
      ⟨"POST", "/mcp/sse", none, some "Bearer tok", none, none, some "S9", none, none⟩
      0 true ⟨[], []⟩).2 "S9" (by decide)).2 (by decide)).1 (by decide)

/-- Counterexample to C2: with session id S1 already registered, a POST
carrying an invalid credential (`Bearer wrong` against required token
`tok`) is not rejected 401 — session-based auth short-circuits the
credential check and the message is forwarded. -/
theorem c2_counterexample :
    (handlePost demoCfg
        ⟨"POST", "/mcp/sse", none, some "Bearer wrong", none, none, some "S1", none, none⟩
        1 true ⟨[("S1", ⟨true, 0⟩)], [("S1", 7)]⟩).1 = .forwarded 7 ∧
    (handlePost demoCfg
        ⟨"POST", "/mcp/sse", none, some "Bearer wrong", none, none, some "S1", none, none⟩
        1 true ⟨[("S1", ⟨true, 0⟩)], [("S1", 7)]⟩).1 ≠ .rejected 401 := by
  decide

theorem truthy_false_of_orFalsy_none (a : Option String) (h : orFalsy a none = none) :
    truthy a = false := by
  unfold orFalsy at h
  split at h
  · rename_i ht
    rw [h] at ht
    simp [truthy] at ht
  · rename_i ht
    simpa using ht

theorem orFalsy_none_eq_some (a : Option String) (t : String)
    (h : orFalsy a none = some t) : a = some t := by
  unfold orFalsy at h
  split at h
  · exact h
  · exact absurd h (by simp)

/-- The session id `checkAuth` actually authenticates on a POST routed
under `sid`: the non-empty `sessionId` query parameter when present
(`checkAuth` prefers the query string), else the routed id itself. -/
def authSidForPost (req : Request) (sid : String) : String :=
  match orFalsy req.qSessionId none with
  | some q => q
  | none => sid

theorem authSessionId_post (req : Request) (sid : String) (hne : sid ≠ "") :
    authSessionId req (some sid) = some (authSidForPost req sid) := by
  have hinner : orFalsy (some sid) none = some sid := by
    simp [orFalsy, truthy, hne]
  unfold authSessionId authSidForPost
  rw [hinner]
  cases hq : orFalsy req.qSessionId none with
  | none =>
    have hf := truthy_false_of_orFalsy_none _ hq
    simp [orFalsy, hf]
  | some q =>
    have ha := orFalsy_none_eq_some _ _ hq
    have hqne : q ≠ "" := orFalsy_none_ne _ _ hq
    simp [orFalsy, truthy, ha, hqne]

/-- C2 as amended: on a POST with its session id present, `checkAuth`
authenticates the query-preferred id (the non-empty `sessionId` query
parameter if any, else the routed header-preferred id).  The POST is
rejected 401 exactly when that authenticated id is not registered and
the credential check fails; when the authenticated id is registered,
session membership alone authenticates the POST — even with an invalid
credential supplied — and it is never rejected 401. -/
theorem c2_amended_session_auth (cfg : AuthConfig) (req : Request) (now : Nat)
    (fOk : Bool) (st : ServerState) (sid : String)
    (hm : req.method = "POST")
    (hauth : cfg.AUTH_REQUIRED = true)
    (hsid : postSessionId req = some sid) :
    ((st.validSessions.lookup (authSidForPost req sid)).isSome = true →
      (handlePost cfg req now fOk st).1 ≠ .rejected 401) ∧
    ((st.validSessions.lookup (authSidForPost req sid)).isSome = false →
      tokenCheckFails cfg req = true →
      (handlePost cfg req now fOk st).1 = .rejected 401) := by
  have hasid := authSessionId_post req sid (postSessionId_ne_empty req sid hsid)
  constructor
  · intro hreg
    have hv : (checkAuth cfg req (some sid) now st.validSessions).1.valid = true := by
      simp [checkAuth, hasid, hauth, hm, hreg]
    cases hl : st.activeTransports.lookup sid with
    | none => simp [handlePost, hsid, hv, hl]
    | some tag => cases fOk <;> simp [handlePost, hsid, hv, hl]
  · intro hreg hfail
    have hv : (checkAuth cfg req (some sid) now st.validSessions).1.valid = false := by
      cases htk : providedToken req with
      | none => simp [checkAuth, hasid, hauth, hm, hreg, htk]
      | some t =>
        unfold tokenCheckFails at hfail
        simp only [htk] at hfail
        by_cases hsec : truthy cfg.SHARED_AUTH_SECRET = true
        · rw [if_pos hsec] at hfail
          have hjw : cfg.jwtValid t = false := by simpa using hfail
          simp [checkAuth, hasid, hauth, hm, hreg, htk, hsec, hjw]
        · rw [if_neg hsec] at hfail
          by_cases hrt : truthy cfg.REQUIRED_TOKEN = true
          · rw [if_pos hrt] at hfail
            have hmm : (cfg.REQUIRED_TOKEN == some t) = false := by simpa using hfail
            simp [checkAuth, hasid, hauth, hm, hreg, htk, hsec, hrt, hmm]
          · rw [if_neg hrt] at hfail
            have hne := providedToken_ne_empty req t htk
            have : t = "" := by simpa using hfail
            exact absurd this hne
    simp [handlePost, hsid, hv]

/-- Witness for the amended C2 at a header/query mismatch: the POST
routes on header id A (no live transport) but `checkAuth` authenticates
the registered query id B with no credential at all, so the request is
not rejected 401 (it is rejected 404). -/
theorem c2_amended_session_auth_witness :
    (handlePost demoCfg
        ⟨"POST", "/mcp/sse", none, none, some "A", none, some "B", none, none⟩
        1 true ⟨[("B", ⟨true, 0⟩)], []⟩).1 ≠ .rejected 401 :=
  (c2_amended_session_auth demoCfg
      ⟨"POST", "/mcp/sse", none, none, some "A", none, some "B", none, none⟩
      1 true ⟨[("B", ⟨true, 0⟩)], []⟩ "A" rfl rfl (by decide)).1 (by decide)

theorem closeStream_transport_lookup (S T : String) (st : ServerState) (tag : Nat)
    (A : SMap SessionInfo)
    (hT : st.activeTransports.lookup S = none) :
    (closeStream S T ⟨A, mapSet T tag st.activeTransports⟩).activeTransports.lookup S
      = none := by
  simp only [closeStream]
  by_cases hST : S = T
  · rw [lookup_mapDelete]
    simp [hST]
  · rw [lookup_mapDelete, if_neg hST, lookup_mapSet, if_neg hST]
    exact hT

/-- C1: after a GET stream-open is accepted for client session id S
(registering S in `validSessions` and the transport under its SDK id T)
and the stream then closes by any means (running both close cleanups),
the Session Registry no longer contains S, and a subsequent
authenticated out-of-band POST carrying S is rejected 404 rather than
forwarded. -/
theorem c1_close_then_404 (cfg : AuthConfig) (st st1 : ServerState) (gReq pReq : Request)
    (S T : String) (tag now now2 : Nat) (fOk : Bool)
    (hga : (checkAuth cfg gReq none now st.validSessions).1.valid = true)
    (hgs : orFalsy gReq.qSessionId none = some S)
    (hT : st.activeTransports.lookup S = none)
    (hopen : handleGet cfg gReq now T tag st = (.accepted S T, st1))
    (hps : postSessionId pReq = some S)
    (hpa : (checkAuth cfg pReq (some S) now2
      (closeStream S T st1).validSessions).1.valid = true) :
    (closeStream S T st1).validSessions.lookup S = none ∧
    (handlePost cfg pReq now2 fOk (closeStream S T st1)).1 = .rejected 404 := by
  have h2 := hopen
  simp [handleGet, hga, hgs, Prod.mk.injEq] at h2
  subst h2
  refine ⟨by simp [closeStream, lookup_mapDelete], ?_⟩
  have htr := closeStream_transport_lookup S T st tag
    (mapSet S ⟨true, now⟩ (checkAuth cfg gReq none now st.validSessions).2) hT
  simp [handlePost, hps, hpa, htr]

/-- Witness for C1: open stream for S1 (transport id T1), close it, then
POST for S1 with a valid token — the registry no longer holds S1 and the
POST is rejected 404. -/
theorem c1_close_then_404_witness :
    (closeStream "S1" "T1" ⟨[("S1", ⟨true, 0⟩)], [("T1", 7)]⟩).validSessions.lookup "S1"
      = none ∧
    (handlePost demoCfg
        ⟨"POST", "/mcp/sse", none, some "Bearer tok", none, none, some "S1", none, none⟩
        1 true (closeStream "S1" "T1" ⟨[("S1", ⟨true, 0⟩)], [("T1", 7)]⟩)).1 =
      .rejected 404 :=
  c1_close_then_404 demoCfg ⟨[], []⟩ ⟨[("S1", ⟨true, 0⟩)], [("T1", 7)]⟩
    ⟨"GET", "/mcp/sse", none, some "Bearer tok", none, none, some "S1", none, none⟩
    ⟨"POST", "/mcp/sse", none, some "Bearer tok", none, none, some "S1", none, none⟩
    "S1" "T1" 7 0 1 true (by decide) (by decide) rfl (by decide) (by decide) (by decide)

/-- Counterexample to C9: an OPTIONS preflight with no `Origin` header
(to a nonexistent path, unauthenticated) is answered 204 but without the
`Access-Control-Allow-Origin` header — the header is only set for an
allowed origin. -/
theorem c9_counterexample :
    (handleRequest demoCfg
        ⟨"OPTIONS", "/nonexistent", none, none, none, none, none, none, none⟩
        0 "T1" 0 true none ⟨[], []⟩).1 = .preflight 204 none := by
  decide

/-- C9 as amended: every OPTIONS request, to any path and without
authentication, is answered 204 with the state unchanged; the
`Access-Control-Allow-Origin` header is set exactly when the request's
`Origin` is present, non-empty and allowed (member of the allow-list, or
reflected when the list contains `*`). -/
theorem c9_amended_preflight (cfg : AuthConfig) (req : Request) (now : Nat)
    (tSid : String) (tag : Nat) (fOk : Bool) (cb : Option (Option String))
    (st : ServerState)
    (hm : req.method = "OPTIONS") :
    handleRequest cfg req now tSid tag fOk cb st =
      (.preflight 204 (resolveAllowedOrigin cfg.ALLOW_ORIGINS req.origin), st) ∧
    ((resolveAllowedOrigin cfg.ALLOW_ORIGINS req.origin).isSome = true ↔
      ∃ o, req.origin = some o ∧ o ≠ "" ∧
        (cfg.ALLOW_ORIGINS.contains "*" = true ∨ cfg.ALLOW_ORIGINS.contains o = true)) := by
  constructor
  · simp [handleRequest, hm]
  · unfold resolveAllowedOrigin
    cases ho : req.origin with
    | none => simp [truthy]
    | some o =>
      by_cases hoe : o = ""
      · subst hoe
        simp [truthy]
      · have htr : truthy (some o) = true := by simp [truthy, hoe]
        by_cases hstar : "*" ∈ cfg.ALLOW_ORIGINS
        · simp [htr, hstar, hoe]
        · by_cases hmem : o ∈ cfg.ALLOW_ORIGINS
          · simp [htr, hstar, hmem, hoe]
          · simp [htr, hstar, hmem, hoe]

/-- Witness for the amended C9: an OPTIONS from the allowed origin gets
204 with the origin reflected in `Access-Control-Allow-Origin`. -/
theorem c9_amended_preflight_witness :
    handleRequest demoCfg
      ⟨"OPTIONS", "/anything", some "http://localhost:3000", none, none, none, none,
        none, none⟩
      0 "T1" 0 true none ⟨[], []⟩ =
      (.preflight 204 (some "http://localhost:3000"), ⟨[], []⟩) :=
  ((c9_amended_preflight demoCfg
      ⟨"OPTIONS", "/anything", some "http://localhost:3000", none, none, none, none,
        none, none⟩
      0 "T1" 0 true none ⟨[], []⟩ rfl).1).trans (by decide)

end McpElicit
